import Mathlib

/-
Shallow embedding of `main.py` (class `PixabayDownloader`): a Pixabay image
downloader with one search call (`obtener_urls_imagenes`), one streaming
download per URL (`descargar_imagen`), and a thread fan-out / join-all driver
(`descargar_imagenes_concurrentes`).

Modelling conventions:
 * The network is an oracle passed in as a function argument: `requests.get`
   for the search endpoint is `SearchParams → HttpResult Json`, and for a
   download URL it is `Json → HttpResult (List Nat)` (body as a byte list).
 * Response bodies of the search call are modelled at the parsed-JSON level
   (`Json` below); the claims under study concern missing fields, not
   byte-level JSON parse failures.
 * Python exceptions are `PyError`; `try/except requests.exceptions.
   RequestException` catches exactly the `requestException` constructor.
 * The filesystem is an explicit `Fs` value threaded through the download
   functions; `print` calls are collected into a `prints : List String` field.
-/

namespace Pixabay

/-- Parsed JSON values, the shape of `respuesta.json()` in `main.py`. -/
inductive Json where
  | null : Json
  | bool (b : Bool) : Json
  | num (n : Int) : Json
  | str (s : String) : Json
  | arr (elems : List Json) : Json
  | obj (fields : List (String × Json)) : Json
deriving Repr

/-- Python exception classes the program can encounter. `requestException`
stands for `requests.exceptions.RequestException` and all its subclasses
(`ConnectionError`, `HTTPError`, ...); `keyError`, `typeError` and `osError`
are the corresponding built-in Python exception classes, none of which is a
subclass of `RequestException`. -/
inductive PyError where
  | requestException (msg : String) : PyError
  | keyError (key : String) : PyError
  | typeError (msg : String) : PyError
  | osError (msg : String) : PyError
deriving Repr, DecidableEq

/-- Whether a raised exception is matched by
`except requests.exceptions.RequestException`. -/
def PyError.isRequestException : PyError → Bool
  | .requestException _ => true
  | _ => false

/-- The message text used when the exception is interpolated into an f-string. -/
def PyError.msg : PyError → String
  | .requestException m => m
  | .keyError k => "KeyError: " ++ k
  | .typeError m => "TypeError: " ++ m
  | .osError m => m

/-- Outcome of a `requests.get` call: either a raised network-level error
(a `RequestException` such as `ConnectionError`), or an HTTP response with a
status code and a body of type `β`. -/
inductive HttpResult (β : Type) where
  | netError (msg : String) : HttpResult β
  | response (status : Nat) (body : β) : HttpResult β

/-- Model of `requests.Response.raise_for_status`: raises `HTTPError` (a subclass of
`RequestException`) exactly when `400 ≤ status_code < 600`; informational,
success and redirect statuses (1xx, 2xx, 3xx) do not raise. -/
def raise_for_status (status : Nat) : Except PyError Unit :=
  if 400 ≤ status ∧ status < 600 then
    .error (.requestException ("HTTPError: " ++ toString status))
  else
    .ok ()

/-- Python subscript `j[k]` with a string key: a dict yields the value or
raises `KeyError`; any non-dict value raises `TypeError`. -/
def Json.getKey : Json → String → Except PyError Json
  | .obj fields, k =>
    match fields.lookup k with
    | some v => .ok v
    | none => .error (.keyError k)
  | _, k => .error (.typeError ("value is not subscriptable with key " ++ k))

/-- Python iteration over a JSON value (`for imagen in datos['hits']`):
a list yields its elements, a string yields its one-character substrings,
a dict yields its keys; other values raise `TypeError`. -/
def Json.pyElems : Json → Except PyError (List Json)
  | .arr xs => .ok xs
  | .str s => .ok (s.toList.map (fun c => Json.str (String.mk [c])))
  | .obj fields => .ok (fields.map (fun kv => Json.str kv.1))
  | _ => .error (.typeError "value is not iterable")

/-- Semantics of a Python list comprehension `[f x for x in l]` where `f` may
raise: elements are produced left to right and the first raised exception
aborts the whole comprehension. -/
def mapExcept (f : α → Except PyError β) : List α → Except PyError (List β)
  | [] => .ok []
  | a :: as =>
    match f a with
    | .error e => .error e
    | .ok b =>
      match mapExcept f as with
      | .error e => .error e
      | .ok bs => .ok (b :: bs)

/-- The query parameters sent by `obtener_urls_imagenes` to the search
endpoint (`params=parametros` in `main.py`). -/
structure SearchParams where
  key : String
  q : String
  image_type : String
  per_page : Nat
deriving Repr, DecidableEq

/-- The downloader's construction-time state: the two attributes assigned in
`__init__` and never reassigned afterwards. -/
structure PixabayDownloader where
  api_key : String
  directorio_imagenes : String
deriving Repr, DecidableEq

/-- Result of a call to `obtener_urls_imagenes`: the returned value (or the
escaping exception) together with everything printed. -/
structure SearchOut where
  result : Except PyError (List Json)
  prints : List String

/-- The body of the `try:` block of `obtener_urls_imagenes`:
`requests.get`, `raise_for_status`, `respuesta.json()`, and the list
comprehension `[imagen['largeImageURL'] for imagen in datos['hits']]`. -/
def searchAttempt (resp : HttpResult Json) : Except PyError (List Json) :=
  match resp with
  | .netError msg => .error (.requestException msg)
  | .response status datos =>
    match raise_for_status status with
    | .error e => .error e
    | .ok _ =>
      match datos.getKey "hits" with
      | .error e => .error e
      | .ok hits =>
        match hits.pyElems with
        | .error e => .error e
        | .ok elems => mapExcept (fun imagen => imagen.getKey "largeImageURL") elems

/-- The dict `parametros` built inside `obtener_urls_imagenes`: credential,
keyword, the fixed `image_type = 'photo'` filter, and `per_page = cantidad`. -/
def parametros (d : PixabayDownloader) (consulta : String) (cantidad : Nat) :
    SearchParams :=
  { key := d.api_key, q := consulta, image_type := "photo", per_page := cantidad }

/-- Model of `PixabayDownloader.obtener_urls_imagenes(consulta, cantidad)`: builds the
query parameters, performs the GET, and wraps the attempt in
`except requests.exceptions.RequestException`, which prints a diagnostic and
returns `[]`; any other exception escapes to the caller. -/
def obtener_urls_imagenes (d : PixabayDownloader) (consulta : String)
    (cantidad : Nat) (net : SearchParams → HttpResult Json) : SearchOut :=
  match searchAttempt (net (parametros d consulta cantidad)) with
  | .ok urls => { result := .ok urls, prints := [] }
  | .error e =>
    if e.isRequestException then
      { result := .ok [], prints := ["Error en la solicitud a la API: " ++ e.msg] }
    else
      { result := .error e, prints := [] }

/-- The local filesystem: a finite map from paths to file contents (byte
lists), plus a writability predicate used to model `open(ruta, 'wb')` raising
`OSError`/`PermissionError` when the path cannot be opened for writing. -/
structure Fs where
  files : List (String × List Nat)
  writable : String → Bool

/-- Content of the file at `p`, if any. -/
def Fs.lookupFile (fs : Fs) (p : String) : Option (List Nat) :=
  fs.files.lookup p

/-- Model of `open(p, 'wb')` followed by writing `content`: truncates/creates the file
at `p` so that afterwards it holds exactly `content`. The association list is
read through `Fs.lookupFile`, where an earlier entry shadows later ones, so
prepending is overwriting. -/
def Fs.writeFile (fs : Fs) (p : String) (content : List Nat) : Fs :=
  { fs with files := (p, content) :: fs.files }

/-- Model of `os.path.join(a, b)` (posix): an absolute `b` (leading slash) discards
`a`; otherwise the parts are joined with exactly one separator. -/
def os_path_join (a b : String) : String :=
  if b.toList.take 1 = ['/'] then b
  else if a = "" then b
  else if a.toList.getLast? = some '/' then a ++ b
  else a ++ "/" ++ b

/-- Model of `Response.iter_content(chunk_size=n)`: the body split into consecutive
chunks of at most `n` bytes (the last chunk may be shorter). A chunk size of
`0` is normalised to `1` so the split always makes progress; `main.py` only
uses `n = 8192`. -/
def chunksOf (n : Nat) (l : List α) : List (List α) :=
  match l with
  | [] => []
  | a :: rest =>
    (a :: rest).take (max n 1) :: chunksOf n ((a :: rest).drop (max n 1))
termination_by l.length
decreasing_by
  simp only [List.length_drop, List.length_cons]
  omega

/-- Result of a call to `descargar_imagen`: the returned value (or the
escaping exception), the filesystem afterwards, and everything printed. -/
structure FetchOut where
  result : Except PyError Unit
  fs : Fs
  prints : List String

/-- The body of the `try:` block of `descargar_imagen`: streaming
`requests.get`, `raise_for_status`, then `open(ruta, 'wb')` and the
chunk-writing loop, then the completion print. Opening the file when the path
is not writable raises `OSError`, which is not a `RequestException`. -/
def fetchAttempt (dir nombre : String) (resp : HttpResult (List Nat))
    (fs : Fs) : Except PyError (Fs × List String) :=
  match resp with
  | .netError msg => .error (.requestException msg)
  | .response status body =>
    match raise_for_status status with
    | .error e => .error e
    | .ok _ =>
      let ruta := os_path_join dir nombre
      if fs.writable ruta then
        let escrito := (chunksOf 8192 body).flatten
        .ok (fs.writeFile ruta escrito, ["Descarga completada: " ++ nombre])
      else
        .error (.osError ("PermissionError: " ++ ruta))

/-- Model of `PixabayDownloader.descargar_imagen(url, nombre_archivo)`: runs the
attempt and catches only `requests.exceptions.RequestException`, printing a
diagnostic naming the file; any other exception (such as `OSError` from the
file open) escapes to the caller. -/
def descargar_imagen (d : PixabayDownloader) (url : Json) (nombre : String)
    (net : Json → HttpResult (List Nat)) (fs : Fs) : FetchOut :=
  match fetchAttempt d.directorio_imagenes nombre (net url) fs with
  | .ok (fs', ps) => { result := .ok (), fs := fs', prints := ps }
  | .error e =>
    if e.isRequestException then
      { result := .ok (), fs := fs,
        prints := ["Error descargando " ++ nombre ++ ": " ++ e.msg] }
    else
      { result := .error e, fs := fs, prints := [] }

/-- The filename derived for the URL at 0-based index `i`
(`f"imagen_{i+1}.jpg"` in `main.py`, where `enumerate` supplies `i`). -/
def nombre_archivo (i : Nat) : String :=
  "imagen_" ++ toString (i + 1) ++ ".jpg"

/-- The `(url, nombre_archivo)` pairs produced by
`for i, url in enumerate(urls)` starting at running index `i`. -/
def mkTasksFrom (i : Nat) : List Json → List (Json × String)
  | [] => []
  | url :: urls => (url, nombre_archivo i) :: mkTasksFrom (i + 1) urls

/-- Result of a call to `descargar_imagenes_concurrentes`: the returned value
(or the escaping exception), the list of `(url, filename)` download tasks for
which a thread was started, the filesystem afterwards, and everything
printed (print interleaving across threads is not modelled; prints are listed
per thread in task order). -/
structure RunOut where
  result : Except PyError Unit
  tasks : List (Json × String)
  fs : Fs
  prints : List String

/-- Model of `PixabayDownloader.descargar_imagenes_concurrentes(consulta, cantidad)`:
calls `obtener_urls_imagenes` (any exception it raises propagates, since the
call is outside every `try`), takes the early-return path when the URL list
is empty, and otherwise starts one thread per URL and joins them all. The
threads write to pairwise distinct paths; their combined filesystem effect is
folded in task order. An exception escaping `descargar_imagen` terminates
only its own thread (Python's threading excepthook prints it), so it never
reaches the caller of this method, and `join()` still returns. -/
def descargar_imagenes_concurrentes (d : PixabayDownloader) (consulta : String)
    (cantidad : Nat) (searchNet : SearchParams → HttpResult Json)
    (fetchNet : Json → HttpResult (List Nat)) (fs : Fs) : RunOut :=
  let s := obtener_urls_imagenes d consulta cantidad searchNet
  match s.result with
  | .error e => { result := .error e, tasks := [], fs := fs, prints := s.prints }
  | .ok urls =>
    if urls.isEmpty then
      { result := .ok (), tasks := [], fs := fs,
        prints := s.prints ++ ["No se encontraron imágenes para descargar."] }
    else
      let tasks := mkTasksFrom 0 urls
      let fin := tasks.foldl
        (fun (acc : Fs × List String) t =>
          let o := descargar_imagen d t.1 t.2 fetchNet acc.1
          (o.fs, acc.2 ++ o.prints))
        (fs, s.prints)
      { result := .ok (), tasks := tasks, fs := fin.1,
        prints := fin.2 ++ ["Todas las imágenes han sido descargadas."] }

/-- The list of directories that `os.makedirs(p)` ensures exist: every
prefix of `p` along the path separators, ending with `p` itself. -/
def pathAncestors (p : String) : List String :=
  let parts := p.splitOn "/"
  (List.range parts.length).map (fun k => String.intercalate "/" (parts.take (k + 1)))

/-- Model of `os.makedirs(p, exist_ok=ok)` over a directory set `dirs`: raises
`FileExistsError` (an `OSError`) when `p` already exists and `exist_ok` is
false; otherwise creates `p` and all its missing ancestors. -/
def makedirs (p : String) (exist_ok : Bool) (dirs : List String) :
    Except PyError (List String) :=
  if !exist_ok && dirs.contains p then
    .error (.osError ("FileExistsError: " ++ p))
  else
    .ok ((pathAncestors p).foldl (fun acc q => acc.insert q) dirs)

/-- Model of `PixabayDownloader.__init__(api_key, directorio_imagenes)`: stores the two
attributes and calls `os.makedirs(directorio_imagenes, exist_ok=True)`.
Returns the constructed downloader and the directory set afterwards. -/
def PixabayDownloader.mkInit (api_key directorio_imagenes : String)
    (dirs : List String) : Except PyError (PixabayDownloader × List String) :=
  match makedirs directorio_imagenes true dirs with
  | .error e => .error e
  | .ok dirs' =>
    .ok ({ api_key := api_key, directorio_imagenes := directorio_imagenes }, dirs')

/-- Method view of `obtener_urls_imagenes` that makes `self` explicit in the
result: the method body assigns no attribute of `self`, so the downloader
after the call is the unchanged receiver. -/
def PixabayDownloader.searchM (d : PixabayDownloader) (consulta : String)
    (cantidad : Nat) (net : SearchParams → HttpResult Json) :
    SearchOut × PixabayDownloader :=
  (obtener_urls_imagenes d consulta cantidad net, d)

/-- Method view of `descargar_imagen` with `self` explicit in the result. -/
def PixabayDownloader.fetchM (d : PixabayDownloader) (url : Json)
    (nombre : String) (net : Json → HttpResult (List Nat)) (fs : Fs) :
    FetchOut × PixabayDownloader :=
  (descargar_imagen d url nombre net fs, d)

/-- Method view of `descargar_imagenes_concurrentes` with `self` explicit in
the result. -/
def PixabayDownloader.runM (d : PixabayDownloader) (consulta : String)
    (cantidad : Nat) (searchNet : SearchParams → HttpResult Json)
    (fetchNet : Json → HttpResult (List Nat)) (fs : Fs) :
    RunOut × PixabayDownloader :=
  (descargar_imagenes_concurrentes d consulta cantidad searchNet fetchNet fs, d)

/-
Interleaving model of the thread section of `descargar_imagenes_concurrentes`
(`hilo.start()` fan-out followed by the `hilo.join()` loop). A state tracks
which launched threads are still running (`pending`, by task index), which
have terminated with their observed outcome (`completed`), and whether the
main thread has passed the join loop and returned (`mainReturned`). A step
either lets one running thread finish — always enabled, whatever the other
threads did — or lets the main thread return once no thread is pending.
-/

/-- A state of the fan-out / join-all thread system. -/
structure ConcState where
  pending : List Nat
  completed : List (Nat × FetchOut)
  mainReturned : Bool

/-- The state right after `hilo.start()` has been called for each of the `n`
tasks: every thread running, none finished, main thread inside the join loop. -/
def startState (n : Nat) : ConcState :=
  { pending := List.range n, completed := [], mainReturned := false }

/-- What the thread for task index `i` computes: `descargar_imagen` applied
to that task's own URL and filename. Every thread starts from the same
filesystem snapshot; the threads write pairwise distinct paths. An index
beyond the task list has no thread; it is mapped to a no-op outcome. -/
def threadOutcome (d : PixabayDownloader) (fetchNet : Json → HttpResult (List Nat))
    (fs : Fs) (tasks : List (Json × String)) (i : Nat) : FetchOut :=
  match tasks.get? i with
  | some t => descargar_imagen d t.1 t.2 fetchNet fs
  | none => { result := .ok (), fs := fs, prints := [] }

/-- One scheduler step of the thread system: `finish` terminates one running
thread with its outcome `out i` (enabled for every pending `i`, regardless of
the outcomes already in `completed`); `joinAll` lets the main thread return
once every thread has terminated. No step is enabled after the main thread
returned. -/
inductive ConcStep (out : Nat → FetchOut) : ConcState → ConcState → Prop where
  | finish (s : ConcState) (i : Nat) (hi : i ∈ s.pending)
      (hm : s.mainReturned = false) :
      ConcStep out s
        { pending := s.pending.erase i, completed := (i, out i) :: s.completed,
          mainReturned := false }
  | joinAll (s : ConcState) (hp : s.pending = []) (hm : s.mainReturned = false) :
      ConcStep out s
        { pending := [], completed := s.completed, mainReturned := true }

/-- States reachable from the post-fan-out state of an `n`-task run. -/
inductive ConcReach (out : Nat → FetchOut) (n : Nat) : ConcState → Prop where
  | start : ConcReach out n (startState n)
  | step (s t : ConcState) : ConcReach out n s → ConcStep out s t →
      ConcReach out n t

/-
Concrete fixtures used by witnesses and counterexamples.
-/

/-- A concrete downloader with the default directory name from `main.py`. -/
def exD : PixabayDownloader :=
  { api_key := "clave", directorio_imagenes := "imagenes_descargadas" }

/-- Two well-formed result entries. -/
def exHits : List Json :=
  [.obj [("id", .num 1), ("largeImageURL", .str "http://x/a.jpg")],
   .obj [("id", .num 2), ("largeImageURL", .str "http://x/b.jpg")]]

/-- A well-formed two-hit search body. -/
def exHitsBody : Json :=
  .obj [("total", .num 2), ("hits", .arr exHits)]

/-- A one-hit search body. -/
def exOneHitBody : Json :=
  .obj [("hits", .arr [.obj [("largeImageURL", .str "http://x/a.jpg")]])]

/-- Search network oracle: HTTP 200 with two hits. -/
def exNet200 : SearchParams → HttpResult Json := fun _ => .response 200 exHitsBody

/-- Search network oracle: HTTP 300 (a non-2xx status that
`raise_for_status` does not raise on) with a one-hit body. -/
def exNet300 : SearchParams → HttpResult Json := fun _ => .response 300 exOneHitBody

/-- Search network oracle: HTTP 200 with a one-hit body. -/
def exNetOneHit : SearchParams → HttpResult Json := fun _ => .response 200 exOneHitBody

/-- Search network oracle: HTTP 404. -/
def exNet404 : SearchParams → HttpResult Json := fun _ => .response 404 exHitsBody

/-- Search network oracle: connection failure. -/
def exNetDown : SearchParams → HttpResult Json :=
  fun _ => .netError "ConnectionError: connection refused"

/-- Search network oracle: HTTP 200 whose body lacks the `hits` field. -/
def exNetMissingHits : SearchParams → HttpResult Json :=
  fun _ => .response 200 (.obj [("total", .num 0)])

/-- Search network oracle: HTTP 200 whose single hit lacks `largeImageURL`. -/
def exNetMissingUrl : SearchParams → HttpResult Json :=
  fun _ => .response 200 (.obj [("hits", .arr [.obj [("id", .num 7)]])])

/-- Search network oracle: HTTP 200 whose single hit has an empty-string URL. -/
def exNetEmptyUrl : SearchParams → HttpResult Json :=
  fun _ => .response 200 (.obj [("hits", .arr [.obj [("largeImageURL", .str "")]])])

/-- A filesystem with one pre-existing downloaded file, everything writable. -/
def exFs : Fs :=
  { files := [("imagenes_descargadas/imagen_1.jpg", [9, 9])],
    writable := fun _ => true }

/-- A filesystem on which no path can be opened for writing. -/
def exFsReadOnly : Fs := { files := [], writable := fun _ => false }

/-- Download network oracle: every URL answers HTTP 200 with a 3-byte body. -/
def exFetchNetOk : Json → HttpResult (List Nat) := fun _ => .response 200 [1, 2, 3]

/-- Download network oracle: every URL fails with a connection error. -/
def exFetchNetDown : Json → HttpResult (List Nat) :=
  fun _ => .netError "ConnectionError: connection refused"

/-- The spec's notion of a well-formed URL (used only to state claim C6):
a JSON string value whose string is non-empty. -/
def specWellFormedUrl (j : Json) : Prop :=
  ∃ s, j = Json.str s ∧ s ≠ ""

/-- The single-task witness run's task list. -/
def c7wTasks : List (Json × String) := [(Json.str "http://x/a.jpg", "imagen_1.jpg")]

/-- The outcome function of the witness run; its one fetch fails with a
connection error, exercising the "completed despite failure" case. -/
def c7wOut : Nat → FetchOut := threadOutcome exD exFetchNetDown exFs c7wTasks

/-
Helper lemmas about the embedded operations. These are shared between the
claim theorems below.
-/

/-- A successful comprehension has one output element per input element. -/
theorem mapExcept_ok_length {α β : Type} {f : α → Except PyError β} :
    ∀ {l : List α} {ys : List β}, mapExcept f l = .ok ys → ys.length = l.length := by
  intro l
  induction l with
  | nil =>
    intro ys h
    simp only [mapExcept] at h
    cases h
    rfl
  | cons a as ih =>
    intro ys h
    simp only [mapExcept] at h
    cases hfa : f a with
    | error e => rw [hfa] at h; cases h
    | ok b =>
      rw [hfa] at h
      cases hrest : mapExcept f as with
      | error e => rw [hrest] at h; cases h
      | ok bs =>
        rw [hrest] at h
        cases h
        simp [ih hrest]

/-- A successful comprehension maps the `i`-th input to the `i`-th output. -/
theorem mapExcept_ok_get {α β : Type} {f : α → Except PyError β} :
    ∀ {l : List α} {ys : List β}, mapExcept f l = .ok ys →
      ∀ i (hi : i < l.length) (hi' : i < ys.length),
        f (l.get ⟨i, hi⟩) = .ok (ys.get ⟨i, hi'⟩) := by
  intro l
  induction l with
  | nil =>
    intro ys h i hi hi'
    exact absurd hi (by simp)
  | cons a as ih =>
    intro ys h i hi hi'
    simp only [mapExcept] at h
    cases hfa : f a with
    | error e => rw [hfa] at h; cases h
    | ok b =>
      rw [hfa] at h
      cases hrest : mapExcept f as with
      | error e => rw [hrest] at h; cases h
      | ok bs =>
        rw [hrest] at h
        cases h
        cases i with
        | zero => simpa using hfa
        | succ j =>
          have hj : j < as.length := by simpa using hi
          have hj' : j < bs.length := by simpa using hi'
          simpa using ih hrest j hj hj'

/-- A failing comprehension fails because `f` failed on some input element. -/
theorem mapExcept_error_exists {α β : Type} {f : α → Except PyError β} :
    ∀ {l : List α} {e : PyError}, mapExcept f l = .error e →
      ∃ a ∈ l, f a = .error e := by
  intro l
  induction l with
  | nil =>
    intro e h
    simp only [mapExcept] at h
    cases h
  | cons a as ih =>
    intro e h
    simp only [mapExcept] at h
    cases hfa : f a with
    | error e₁ =>
      rw [hfa] at h
      cases h
      exact ⟨a, by simp, hfa⟩
    | ok b =>
      rw [hfa] at h
      cases hrest : mapExcept f as with
      | error e₁ =>
        rw [hrest] at h
        cases h
        obtain ⟨x, hx, hfx⟩ := ih hrest
        exact ⟨x, by simp [hx], hfx⟩
      | ok bs => rw [hrest] at h; cases h

/-- Subscripting never raises a `RequestException`. -/
theorem getKey_error_not_request {j : Json} {k : String} {e : PyError}
    (h : j.getKey k = .error e) : e.isRequestException = false := by
  cases j with
  | obj fields =>
    simp only [Json.getKey] at h
    cases hl : fields.lookup k with
    | some v => rw [hl] at h; cases h
    | none => rw [hl] at h; cases h; rfl
  | null => cases h; rfl
  | bool b => cases h; rfl
  | num n => cases h; rfl
  | str s => cases h; rfl
  | arr xs => cases h; rfl

/-- Iteration never raises a `RequestException`. -/
theorem pyElems_error_not_request {j : Json} {e : PyError}
    (h : j.pyElems = .error e) : e.isRequestException = false := by
  cases j with
  | null => cases h; rfl
  | bool b => cases h; rfl
  | num n => cases h; rfl
  | str s => cases h
  | arr xs => cases h
  | obj fields => cases h

/-- The chunks of `iter_content` concatenate back to the body verbatim. -/
theorem flatten_chunksOf {α : Type} (n : Nat) (l : List α) :
    (chunksOf n l).flatten = l := by
  induction l using chunksOf.induct n with
  | case1 => simp [chunksOf]
  | case2 a rest ih =>
    rw [chunksOf, List.flatten_cons, ih, List.take_append_drop]

/-- After a write, the written path holds exactly the written content. -/
theorem lookupFile_writeFile_same (fs : Fs) (p : String) (c : List Nat) :
    (fs.writeFile p c).lookupFile p = some c := by
  simp [Fs.writeFile, Fs.lookupFile, List.lookup]

/-- After a write, every other path holds what it held before. -/
theorem lookupFile_writeFile_ne (fs : Fs) (p q : String) (c : List Nat)
    (h : q ≠ p) : (fs.writeFile p c).lookupFile q = fs.lookupFile q := by
  have hq : (q == p) = false := by simp [h]
  simp [Fs.writeFile, Fs.lookupFile, List.lookup, hq]

/-- The `enumerate` loop produces one task per URL. -/
theorem mkTasksFrom_length : ∀ (k : Nat) (urls : List Json),
    (mkTasksFrom k urls).length = urls.length := by
  intro k urls
  induction urls generalizing k with
  | nil => rfl
  | cons u us ih => simp [mkTasksFrom, ih]

/-- The `i`-th task pairs the `i`-th URL with the filename derived from the
running index `k + i`. -/
theorem mkTasksFrom_get : ∀ (urls : List Json) (k i : Nat)
    (hi : i < (mkTasksFrom k urls).length) (hu : i < urls.length),
    (mkTasksFrom k urls).get ⟨i, hi⟩ = (urls.get ⟨i, hu⟩, nombre_archivo (k + i)) := by
  intro urls
  induction urls with
  | nil => intro k i hi hu; exact absurd hu (by simp)
  | cons u us ih =>
    intro k i hi hu
    cases i with
    | zero => simp [mkTasksFrom]
    | succ j =>
      have hj : j < (mkTasksFrom (k + 1) us).length := by
        simpa [mkTasksFrom] using hi
      have hju : j < us.length := by simpa using hu
      have harith : k + 1 + j = k + (j + 1) := by omega
      simpa [mkTasksFrom, harith] using ih (k + 1) j hj hju

/-- Index-based form of `mkTasksFrom_get` avoiding dependent index proofs. -/
theorem mkTasksFrom_lookup : ∀ (urls : List Json) (k i : Nat)
    (hu : i < urls.length),
    (mkTasksFrom k urls).get? i = some (urls.get ⟨i, hu⟩, nombre_archivo (k + i)) := by
  intro urls
  induction urls with
  | nil => intro k i hu; exact absurd hu (by simp)
  | cons u us ih =>
    intro k i hu
    cases i with
    | zero => simp [mkTasksFrom]
    | succ j =>
      have hju : j < us.length := by simpa using hu
      have harith : k + 1 + j = k + (j + 1) := by omega
      simpa [mkTasksFrom, harith] using ih (k + 1) j hju

/-- On a response whose status does not trigger `raise_for_status` and whose
body is an object carrying a `hits` array, the search attempt reduces to the
comprehension over the hits. -/
theorem searchAttempt_response_hits {st : Nat} {fields : List (String × Json)}
    {hits : List Json} (hst : ¬ (400 ≤ st ∧ st < 600))
    (hhits : fields.lookup "hits" = some (.arr hits)) :
    searchAttempt (.response st (.obj fields)) =
      mapExcept (fun imagen => imagen.getKey "largeImageURL") hits := by
  simp [searchAttempt, raise_for_status, if_neg hst, Json.getKey, hhits, Json.pyElems]

/-- Invariant of the thread system: the running and finished task indices
together are a permutation of the launched indices, and the main thread has
returned only if no thread is still running. -/
theorem concReach_invariant {out : Nat → FetchOut} {n : Nat} {s : ConcState}
    (h : ConcReach out n s) :
    (s.pending ++ s.completed.map Prod.fst).Perm (List.range n) ∧
    (s.mainReturned = true → s.pending = []) := by
  induction h with
  | start =>
    refine ⟨by simp [startState], ?_⟩
    intro hm
    simp [startState] at hm
  | step s t hr hstep ih =>
    cases hstep with
    | finish i hi hm =>
      refine ⟨?_, by intro hm'; simp at hm'⟩
      refine List.Perm.trans List.perm_middle ?_
      have hcons : (i :: s.pending.erase i) ++ s.completed.map Prod.fst =
          i :: (s.pending.erase i ++ s.completed.map Prod.fst) := rfl
      rw [← hcons]
      exact List.Perm.trans
        (List.Perm.append_right _ (List.perm_cons_erase hi).symm) ih.1
    | joinAll hp hm =>
      refine ⟨?_, fun _ => rfl⟩
      simpa [hp] using ih.1

/-
Claim C1.
-/

/-- C1, amended: if the search HTTP call fails with a network error or with a
4xx/5xx status (the statuses `raise_for_status` raises on — not every non-2xx
status), `obtener_urls_imagenes` returns the empty list, and
`descargar_imagenes_concurrentes` takes the "no results" path: it prints the
diagnostic and returns without starting any download, leaving the filesystem
untouched. -/
theorem C1_search_failure_no_download (d : PixabayDownloader)
    (consulta : String) (cantidad : Nat)
    (searchNet : SearchParams → HttpResult Json)
    (fetchNet : Json → HttpResult (List Nat)) (fs : Fs)
    (hfail :
      (∃ msg, searchNet (parametros d consulta cantidad) = .netError msg) ∨
      (∃ st body, searchNet (parametros d consulta cantidad) = .response st body ∧
        400 ≤ st ∧ st < 600)) :
    (obtener_urls_imagenes d consulta cantidad searchNet).result = .ok [] ∧
    (descargar_imagenes_concurrentes d consulta cantidad searchNet fetchNet fs).result = .ok () ∧
    (descargar_imagenes_concurrentes d consulta cantidad searchNet fetchNet fs).tasks = [] ∧
    (descargar_imagenes_concurrentes d consulta cantidad searchNet fetchNet fs).fs = fs ∧
    "No se encontraron imágenes para descargar." ∈
      (descargar_imagenes_concurrentes d consulta cantidad searchNet fetchNet fs).prints := by
  obtain ⟨m, hatt⟩ : ∃ m, searchAttempt (searchNet (parametros d consulta cantidad)) =
      .error (.requestException m) := by
    rcases hfail with ⟨msg, hresp⟩ | ⟨st, body, hresp, h4, h6⟩
    · exact ⟨msg, by simp [searchAttempt, hresp]⟩
    · refine ⟨"HTTPError: " ++ toString st, ?_⟩
      have hrs : raise_for_status st =
          .error (.requestException ("HTTPError: " ++ toString st)) := by
        simp [raise_for_status, h4, h6]
      simp [searchAttempt, hresp, hrs]
  have hob : obtener_urls_imagenes d consulta cantidad searchNet =
      { result := .ok [],
        prints := ["Error en la solicitud a la API: " ++ m] } := by
    simp [obtener_urls_imagenes, hatt, PyError.isRequestException, PyError.msg]
  have hrun : descargar_imagenes_concurrentes d consulta cantidad searchNet fetchNet fs =
      { result := .ok (), tasks := [], fs := fs,
        prints := ["Error en la solicitud a la API: " ++ m] ++
          ["No se encontraron imágenes para descargar."] } := by
    simp [descargar_imagenes_concurrentes, hob]
  refine ⟨by rw [hob], by rw [hrun], by rw [hrun], by rw [hrun], ?_⟩
  rw [hrun]
  simp

/-- C1 witness: with a connection-error search oracle, search returns the
empty list and the run starts no download. -/
theorem C1_search_failure_no_download_witness :
    (obtener_urls_imagenes exD "perros" 5 exNetDown).result = .ok [] ∧
    (descargar_imagenes_concurrentes exD "perros" 5 exNetDown exFetchNetOk exFs).result = .ok () ∧
    (descargar_imagenes_concurrentes exD "perros" 5 exNetDown exFetchNetOk exFs).tasks = [] ∧
    (descargar_imagenes_concurrentes exD "perros" 5 exNetDown exFetchNetOk exFs).fs = exFs ∧
    "No se encontraron imágenes para descargar." ∈
      (descargar_imagenes_concurrentes exD "perros" 5 exNetDown exFetchNetOk exFs).prints :=
  C1_search_failure_no_download exD "perros" 5 exNetDown exFetchNetOk exFs
    (Or.inl ⟨"ConnectionError: connection refused", rfl⟩)

/-- C1 counterexample: an HTTP 300 response is non-2xx, yet
`raise_for_status` does not raise on it, so search returns a non-empty list
and the run starts a download — contradicting the claim that every non-2xx
response yields an empty sequence and no fetch. -/
theorem C1_counterexample_status_300 :
    (obtener_urls_imagenes exD "perros" 5 exNet300).result =
      .ok [Json.str "http://x/a.jpg"] ∧
    (descargar_imagenes_concurrentes exD "perros" 5 exNet300 exFetchNetOk exFs).tasks =
      [(Json.str "http://x/a.jpg", "imagen_1.jpg")] ∧
    ¬ (200 ≤ 300 ∧ 300 ≤ 299) := by
  refine ⟨rfl, rfl, by omega⟩

/-
Claim C2.
-/

/-- C2: whenever the search returns a non-empty list of `N` URLs, the run
starts exactly one fetch per URL; the fetch for the URL at 0-based index `i`
(1-based position `i + 1`) targets exactly the filename
`imagen_<i+1>.jpg`; and the list of target filenames is a function of the
position range alone, so repeated runs with the same count target the same
filenames. -/
theorem C2_one_task_per_url (d : PixabayDownloader) (consulta : String)
    (cantidad : Nat) (searchNet : SearchParams → HttpResult Json)
    (fetchNet : Json → HttpResult (List Nat)) (fs : Fs) (urls : List Json)
    (hok : (obtener_urls_imagenes d consulta cantidad searchNet).result = .ok urls)
    (hne : urls ≠ []) :
    (descargar_imagenes_concurrentes d consulta cantidad searchNet fetchNet fs).tasks.length =
      urls.length ∧
    (∀ i (hu : i < urls.length),
      (descargar_imagenes_concurrentes d consulta cantidad searchNet
        fetchNet fs).tasks.get? i =
        some (urls.get ⟨i, hu⟩, "imagen_" ++ toString (i + 1) ++ ".jpg")) ∧
    (descargar_imagenes_concurrentes d consulta cantidad searchNet fetchNet fs).tasks.map
      Prod.snd = (List.range urls.length).map nombre_archivo := by
  have htasks : (descargar_imagenes_concurrentes d consulta cantidad searchNet
      fetchNet fs).tasks = mkTasksFrom 0 urls := by
    cases urls with
    | nil => exact absurd rfl hne
    | cons u us =>
      simp only [descargar_imagenes_concurrentes]
      rw [hok]
      rfl
  refine ⟨by rw [htasks, mkTasksFrom_length], ?_, ?_⟩
  · intro i hu
    rw [htasks, mkTasksFrom_lookup urls 0 i hu]
    simp [nombre_archivo]
  · rw [htasks]
    apply List.ext_get
    · simp [mkTasksFrom_length]
    · intro i h1 h2
      have hi : i < (mkTasksFrom 0 urls).length := by simpa using h1
      have hu : i < urls.length := by rw [mkTasksFrom_length] at hi; exact hi
      rw [List.get_map, List.get_map, List.get_range, mkTasksFrom_get urls 0 i hi hu]
      simp

/-- C2 witness: a successful two-hit search produces exactly two download
tasks named `imagen_1.jpg` and `imagen_2.jpg`. -/
theorem C2_one_task_per_url_witness :
    (descargar_imagenes_concurrentes exD "perros" 2 exNet200 exFetchNetOk exFs).tasks.length =
      [Json.str "http://x/a.jpg", Json.str "http://x/b.jpg"].length ∧
    (descargar_imagenes_concurrentes exD "perros" 2 exNet200 exFetchNetOk exFs).tasks.map
      Prod.snd = (List.range [Json.str "http://x/a.jpg",
        Json.str "http://x/b.jpg"].length).map nombre_archivo := by
  have h := C2_one_task_per_url exD "perros" 2 exNet200 exFetchNetOk exFs
    [Json.str "http://x/a.jpg", Json.str "http://x/b.jpg"] rfl (by simp)
  exact ⟨h.1, h.2.2⟩

/-
Claims C3, C4, C6: the success and malformed-body paths of the search.
-/

/-- Shared shape lemma: on a non-raising status with a `hits` array, a
returned `.ok urls` can only have come from the URL-field comprehension over
the hits (the catch clause is unreachable because subscripting never raises a
`RequestException`). -/
theorem search_ok_comprehension (d : PixabayDownloader) (consulta : String)
    (cantidad : Nat) (searchNet : SearchParams → HttpResult Json)
    (st : Nat) (fields : List (String × Json)) (hits urls : List Json)
    (hresp : searchNet (parametros d consulta cantidad) = .response st (.obj fields))
    (hst : ¬ (400 ≤ st ∧ st < 600))
    (hhits : fields.lookup "hits" = some (.arr hits))
    (hok : (obtener_urls_imagenes d consulta cantidad searchNet).result = .ok urls) :
    mapExcept (fun imagen => imagen.getKey "largeImageURL") hits = .ok urls := by
  have hatt : searchAttempt (searchNet (parametros d consulta cantidad)) =
      mapExcept (fun imagen => imagen.getKey "largeImageURL") hits := by
    rw [hresp]
    exact searchAttempt_response_hits hst hhits
  simp only [obtener_urls_imagenes, hatt] at hok
  cases hmap : mapExcept (fun imagen => imagen.getKey "largeImageURL") hits with
  | ok ys =>
    rw [hmap] at hok
    simpa using hok
  | error e =>
    rw [hmap] at hok
    obtain ⟨a, _, hfa⟩ := mapExcept_error_exists hmap
    have hnr := getKey_error_not_request hfa
    simp [hnr] at hok

/-- C3, amended: a 2xx response body lacking the expected JSON fields is NOT
handled like a `SearchRequestFailure`: the subscript raises a `KeyError`
(`'hits'` when the results array is missing, `'largeImageURL'` when the first
result entry lacks the image-URL field), which is not caught by the
`except requests.exceptions.RequestException` clause and escapes
`obtener_urls_imagenes` to its caller instead of yielding an empty list. -/
theorem C3_missing_fields_raise_keyError (d : PixabayDownloader)
    (consulta : String) (cantidad : Nat)
    (searchNet : SearchParams → HttpResult Json)
    (st : Nat) (fields : List (String × Json))
    (hresp : searchNet (parametros d consulta cantidad) = .response st (.obj fields))
    (hst : ¬ (400 ≤ st ∧ st < 600)) :
    (fields.lookup "hits" = none →
      (obtener_urls_imagenes d consulta cantidad searchNet).result =
        .error (.keyError "hits")) ∧
    (∀ fields₂ rest, fields.lookup "hits" = some (.arr (Json.obj fields₂ :: rest)) →
      fields₂.lookup "largeImageURL" = none →
      (obtener_urls_imagenes d consulta cantidad searchNet).result =
        .error (.keyError "largeImageURL")) := by
  constructor
  · intro hnone
    have hatt : searchAttempt (searchNet (parametros d consulta cantidad)) =
        .error (.keyError "hits") := by
      rw [hresp]
      simp [searchAttempt, raise_for_status, if_neg hst, Json.getKey, hnone]
    simp [obtener_urls_imagenes, hatt, PyError.isRequestException]
  · intro fields₂ rest hhits hnone
    have hatt : searchAttempt (searchNet (parametros d consulta cantidad)) =
        .error (.keyError "largeImageURL") := by
      rw [hresp, searchAttempt_response_hits hst hhits]
      simp [mapExcept, Json.getKey, hnone]
    simp [obtener_urls_imagenes, hatt, PyError.isRequestException]

/-- C3 witness: concrete malformed bodies for both missing fields. -/
theorem C3_missing_fields_raise_keyError_witness :
    (obtener_urls_imagenes exD "perros" 5 exNetMissingHits).result =
      .error (.keyError "hits") ∧
    (obtener_urls_imagenes exD "perros" 5 exNetMissingUrl).result =
      .error (.keyError "largeImageURL") := by
  constructor
  · exact (C3_missing_fields_raise_keyError exD "perros" 5 exNetMissingHits 200
      [("total", Json.num 0)] rfl (by omega)).1 rfl
  · exact (C3_missing_fields_raise_keyError exD "perros" 5 exNetMissingUrl 200
      [("hits", Json.arr [Json.obj [("id", Json.num 7)]])] rfl (by omega)).2
      [("id", Json.num 7)] [] rfl rfl

/-- C3 counterexample: on a 2xx response whose body lacks `hits`, search does
not return the empty list — it raises `KeyError('hits')`, which escapes. -/
theorem C3_counterexample_missing_hits :
    (obtener_urls_imagenes exD "perros" 5 exNetMissingHits).result =
      .error (.keyError "hits") ∧
    (Except.error (PyError.keyError "hits") : Except PyError (List Json)) ≠
      .ok [] :=
  ⟨rfl, by simp⟩

/-- C4, amended: on a successful parse the returned sequence has exactly one
element per entry of the provider's `hits` array — its length equals the
number of hits, with no truncation to `cantidad`; the length is bounded by
`cantidad` only when the provider itself honours `per_page`. -/
theorem C4_length_eq_hits_length (d : PixabayDownloader) (consulta : String)
    (cantidad : Nat) (searchNet : SearchParams → HttpResult Json)
    (st : Nat) (fields : List (String × Json)) (hits urls : List Json)
    (hresp : searchNet (parametros d consulta cantidad) = .response st (.obj fields))
    (hst : ¬ (400 ≤ st ∧ st < 600))
    (hhits : fields.lookup "hits" = some (.arr hits))
    (hok : (obtener_urls_imagenes d consulta cantidad searchNet).result = .ok urls) :
    urls.length = hits.length :=
  mapExcept_ok_length
    (search_ok_comprehension d consulta cantidad searchNet st fields hits urls
      hresp hst hhits hok)

/-- C4 witness: a two-hit response yields a two-URL sequence. -/
theorem C4_length_eq_hits_length_witness :
    ([Json.str "http://x/a.jpg", Json.str "http://x/b.jpg"] : List Json).length =
      exHits.length :=
  C4_length_eq_hits_length exD "perros" 50 exNet200 200
    [("total", Json.num 2), ("hits", Json.arr exHits)] exHits
    [Json.str "http://x/a.jpg", Json.str "http://x/b.jpg"] rfl (by omega) rfl rfl

/-- C4 counterexample: with `cantidad = 0` but a provider response carrying
one hit, search returns one URL — the claimed bound `length ≤ count` fails. -/
theorem C4_counterexample_exceeds_count :
    (obtener_urls_imagenes exD "perros" 0 exNetOneHit).result =
      .ok [Json.str "http://x/a.jpg"] ∧
    ¬ (([Json.str "http://x/a.jpg"] : List Json).length ≤ 0) :=
  ⟨rfl, by simp⟩

/-- C6, amended: on a successful parse the returned sequence contains exactly
one element per `hits` entry, in provider order — the `i`-th returned element
is precisely the `largeImageURL` field value of the `i`-th hit. The code
performs no validation, so the elements are whatever values the provider sent
and need not be well-formed (non-empty-string) URLs. -/
theorem C6_order_preserved_no_validation (d : PixabayDownloader)
    (consulta : String) (cantidad : Nat)
    (searchNet : SearchParams → HttpResult Json)
    (st : Nat) (fields : List (String × Json)) (hits urls : List Json)
    (hresp : searchNet (parametros d consulta cantidad) = .response st (.obj fields))
    (hst : ¬ (400 ≤ st ∧ st < 600))
    (hhits : fields.lookup "hits" = some (.arr hits))
    (hok : (obtener_urls_imagenes d consulta cantidad searchNet).result = .ok urls) :
    urls.length = hits.length ∧
    ∀ i (hu : i < hits.length) (hv : i < urls.length),
      (hits.get ⟨i, hu⟩).getKey "largeImageURL" = .ok (urls.get ⟨i, hv⟩) := by
  have hmap := search_ok_comprehension d consulta cantidad searchNet st fields
    hits urls hresp hst hhits hok
  refine ⟨mapExcept_ok_length hmap, ?_⟩
  intro i hu hv
  simpa using mapExcept_ok_get hmap i hu hv

/-- C6 witness: the first returned element is the first hit's URL field. -/
theorem C6_order_preserved_no_validation_witness :
    ([Json.str "http://x/a.jpg", Json.str "http://x/b.jpg"] : List Json).length =
      exHits.length ∧
    (exHits.get ⟨0, by simp [exHits]⟩).getKey "largeImageURL" =
      .ok (([Json.str "http://x/a.jpg", Json.str "http://x/b.jpg"] :
        List Json).get ⟨0, by simp⟩) := by
  have h := C6_order_preserved_no_validation exD "perros" 50 exNet200 200
    [("total", Json.num 2), ("hits", Json.arr exHits)] exHits
    [Json.str "http://x/a.jpg", Json.str "http://x/b.jpg"] rfl (by omega) rfl rfl
  exact ⟨h.1, h.2 0 (by simp [exHits]) (by simp)⟩

/-- C6 counterexample: a provider entry whose `largeImageURL` is the empty
string is returned as-is — the returned element is not a well-formed
(non-empty-string) URL. -/
theorem C6_counterexample_empty_url :
    (obtener_urls_imagenes exD "perros" 5 exNetEmptyUrl).result =
      .ok [Json.str ""] ∧
    ¬ specWellFormedUrl (Json.str "") := by
  refine ⟨rfl, ?_⟩
  rintro ⟨s, hs, hne⟩
  cases hs
  exact hne rfl

/-
Claim C5.
-/

/-- C5, amended: the `except` clauses catch exactly
`requests.exceptions.RequestException`, so every exception that does escape
`obtener_urls_imagenes`, `descargar_imagen`, or
`descargar_imagenes_concurrentes` is of a non-`RequestException` class
(`KeyError`/`TypeError` from a malformed search body, `OSError` from the file
open) — network and HTTP-status failures themselves never cross a component
boundary, but those other exceptions do. -/
theorem C5_only_requestException_caught (d : PixabayDownloader)
    (consulta : String) (cantidad : Nat)
    (searchNet : SearchParams → HttpResult Json)
    (fetchNet : Json → HttpResult (List Nat)) (url : Json) (nombre : String)
    (fs : Fs) :
    (∀ e, (obtener_urls_imagenes d consulta cantidad searchNet).result = .error e →
      e.isRequestException = false) ∧
    (∀ e, (descargar_imagen d url nombre fetchNet fs).result = .error e →
      e.isRequestException = false) ∧
    (∀ e, (descargar_imagenes_concurrentes d consulta cantidad searchNet
      fetchNet fs).result = .error e → e.isRequestException = false) := by
  have hsearch : ∀ e,
      (obtener_urls_imagenes d consulta cantidad searchNet).result = .error e →
      e.isRequestException = false := by
    intro e he
    simp only [obtener_urls_imagenes] at he
    cases hatt : searchAttempt (searchNet (parametros d consulta cantidad)) with
    | ok urls => rw [hatt] at he; simp at he
    | error e' =>
      rw [hatt] at he
      cases hreq : e'.isRequestException with
      | true => simp [hreq] at he
      | false =>
        simp [hreq] at he
        exact he ▸ hreq
  refine ⟨hsearch, ?_, ?_⟩
  · intro e he
    simp only [descargar_imagen] at he
    cases hatt : fetchAttempt d.directorio_imagenes nombre (fetchNet url) fs with
    | ok out => rw [hatt] at he; simp at he
    | error e' =>
      rw [hatt] at he
      cases hreq : e'.isRequestException with
      | true => simp [hreq] at he
      | false =>
        simp [hreq] at he
        exact he ▸ hreq
  · intro e he
    simp only [descargar_imagenes_concurrentes] at he
    cases hres : (obtener_urls_imagenes d consulta cantidad searchNet).result with
    | error e' =>
      rw [hres] at he
      simp at he
      exact he ▸ hsearch e' hres
    | ok urls =>
      rw [hres] at he
      by_cases hemp : urls.isEmpty
      · simp [hemp] at he
      · simp [hemp] at he

/-- C5 witness: the exception escaping the search on a body lacking `hits` is
a `KeyError`, not a `RequestException`. -/
theorem C5_only_requestException_caught_witness :
    (PyError.keyError "hits").isRequestException = false :=
  (C5_only_requestException_caught exD "perros" 5 exNetMissingHits exFetchNetOk
    (Json.str "u") "f.jpg" exFs).1 (PyError.keyError "hits") rfl

/-- C5 counterexample: on a 2xx search response lacking the `hits` field the
run itself terminates with an escaped `KeyError` — an exception does cross
the component boundary to the caller of `run`, contradicting the claim. -/
theorem C5_counterexample_keyError_escapes_run :
    (descargar_imagenes_concurrentes exD "perros" 5 exNetMissingHits
      exFetchNetOk exFs).result = .error (.keyError "hits") ∧
    (PyError.keyError "hits").isRequestException = false :=
  ⟨rfl, rfl⟩

/-
Claim C8.
-/

/-- C8: a successful fetch (non-raising status, writable destination) writes
to `<directorio_imagenes>/<nombre>` exactly the response body — the
concatenation of the 8192-byte chunks is the body verbatim — overwriting any
existing file at that path, while every other path is untouched, and prints
the completion diagnostic. -/
theorem C8_fetch_writes_body (d : PixabayDownloader) (url : Json)
    (nombre : String) (net : Json → HttpResult (List Nat)) (fs : Fs)
    (st : Nat) (body : List Nat)
    (hresp : net url = .response st body)
    (hst : ¬ (400 ≤ st ∧ st < 600))
    (hw : fs.writable (os_path_join d.directorio_imagenes nombre) = true) :
    (descargar_imagen d url nombre net fs).result = .ok () ∧
    (descargar_imagen d url nombre net fs).fs.lookupFile
      (os_path_join d.directorio_imagenes nombre) = some body ∧
    (∀ p, p ≠ os_path_join d.directorio_imagenes nombre →
      (descargar_imagen d url nombre net fs).fs.lookupFile p = fs.lookupFile p) ∧
    (descargar_imagen d url nombre net fs).prints =
      ["Descarga completada: " ++ nombre] := by
  have hatt : fetchAttempt d.directorio_imagenes nombre (net url) fs =
      .ok (fs.writeFile (os_path_join d.directorio_imagenes nombre)
        ((chunksOf 8192 body).flatten), ["Descarga completada: " ++ nombre]) := by
    rw [hresp]
    simp [fetchAttempt, raise_for_status, if_neg hst, hw]
  have hdesc : descargar_imagen d url nombre net fs =
      { result := .ok (),
        fs := fs.writeFile (os_path_join d.directorio_imagenes nombre)
          ((chunksOf 8192 body).flatten),
        prints := ["Descarga completada: " ++ nombre] } := by
    simp [descargar_imagen, hatt]
  rw [hdesc, flatten_chunksOf]
  exact ⟨rfl, lookupFile_writeFile_same fs _ body,
    fun p hp => lookupFile_writeFile_ne fs _ p body hp, rfl⟩

/-- C8 witness: downloading over the pre-existing `imagen_1.jpg` replaces its
old 2-byte content with the 3-byte response body; an unrelated path keeps its
(absent) content. -/
theorem C8_fetch_writes_body_witness :
    (descargar_imagen exD (Json.str "http://x/a.jpg") "imagen_1.jpg"
      exFetchNetOk exFs).result = .ok () ∧
    (descargar_imagen exD (Json.str "http://x/a.jpg") "imagen_1.jpg"
      exFetchNetOk exFs).fs.lookupFile
      (os_path_join exD.directorio_imagenes "imagen_1.jpg") = some [1, 2, 3] ∧
    (descargar_imagen exD (Json.str "http://x/a.jpg") "imagen_1.jpg"
      exFetchNetOk exFs).fs.lookupFile "otro.txt" = exFs.lookupFile "otro.txt" ∧
    (descargar_imagen exD (Json.str "http://x/a.jpg") "imagen_1.jpg"
      exFetchNetOk exFs).prints = ["Descarga completada: " ++ "imagen_1.jpg"] := by
  have h := C8_fetch_writes_body exD (Json.str "http://x/a.jpg") "imagen_1.jpg"
    exFetchNetOk exFs 200 [1, 2, 3] rfl (by omega) rfl
  exact ⟨h.1, h.2.1, h.2.2.1 "otro.txt" (by decide), h.2.2.2⟩

/-
Claim C10.
-/

/-- C10: `descargar_imagen` catches only `requests.exceptions.
RequestException`; when the HTTP request succeeds but the destination path
cannot be opened for writing, the resulting `OSError` escapes the function
uncaught — no diagnostic is printed and the filesystem is unchanged. -/
theorem C10_os_error_escapes_fetch (d : PixabayDownloader) (url : Json)
    (nombre : String) (net : Json → HttpResult (List Nat)) (fs : Fs)
    (st : Nat) (body : List Nat)
    (hresp : net url = .response st body)
    (hst : ¬ (400 ≤ st ∧ st < 600))
    (hw : fs.writable (os_path_join d.directorio_imagenes nombre) = false) :
    (descargar_imagen d url nombre net fs).result =
      .error (.osError ("PermissionError: " ++
        os_path_join d.directorio_imagenes nombre)) ∧
    (descargar_imagen d url nombre net fs).prints = [] ∧
    (descargar_imagen d url nombre net fs).fs = fs := by
  have hatt : fetchAttempt d.directorio_imagenes nombre (net url) fs =
      .error (.osError ("PermissionError: " ++
        os_path_join d.directorio_imagenes nombre)) := by
    rw [hresp]
    simp [fetchAttempt, raise_for_status, if_neg hst, hw]
  simp [descargar_imagen, hatt, PyError.isRequestException]

/-- C10 witness: with an unwritable destination the fetch ends in an escaped
`OSError`, with no diagnostic printed. -/
theorem C10_os_error_escapes_fetch_witness :
    (descargar_imagen exD (Json.str "http://x/a.jpg") "imagen_1.jpg"
      exFetchNetOk exFsReadOnly).result =
      .error (.osError ("PermissionError: " ++
        os_path_join exD.directorio_imagenes "imagen_1.jpg")) ∧
    (descargar_imagen exD (Json.str "http://x/a.jpg") "imagen_1.jpg"
      exFetchNetOk exFsReadOnly).prints = [] ∧
    (descargar_imagen exD (Json.str "http://x/a.jpg") "imagen_1.jpg"
      exFetchNetOk exFsReadOnly).fs = exFsReadOnly :=
  C10_os_error_escapes_fetch exD (Json.str "http://x/a.jpg") "imagen_1.jpg"
    exFetchNetOk exFsReadOnly 200 [1, 2, 3] rfl (by omega) rfl

/-
Claim C9.
-/

/-- Folding `insert` preserves existing members. -/
theorem mem_foldl_insert_of_mem {a : String} :
    ∀ (l ds : List String), a ∈ ds →
      a ∈ l.foldl (fun acc q => acc.insert q) ds := by
  intro l
  induction l with
  | nil => intro ds h; exact h
  | cons b bs ih =>
    intro ds h
    exact ih (ds.insert b) (List.mem_insert_of_mem h)

/-- Folding `insert` makes every folded element a member. -/
theorem mem_foldl_insert_self {a : String} :
    ∀ (l ds : List String), a ∈ l →
      a ∈ l.foldl (fun acc q => acc.insert q) ds := by
  intro l
  induction l with
  | nil => intro ds h; cases h
  | cons b bs ih =>
    intro ds h
    rcases List.mem_cons.mp h with hab | has
    · subst hab
      exact mem_foldl_insert_of_mem bs (ds.insert a) (List.mem_insert_self a ds)
    · exact ih (ds.insert b) has

/-- Folding `insert` over elements that are already present is a no-op. -/
theorem foldl_insert_no_op :
    ∀ (l ds : List String), (∀ a ∈ l, a ∈ ds) →
      l.foldl (fun acc q => acc.insert q) ds = ds := by
  intro l
  induction l with
  | nil => intro ds _; rfl
  | cons b bs ih =>
    intro ds h
    have hb : b ∈ ds := h b (by simp)
    rw [List.foldl_cons, List.insert_of_mem hb]
    exact ih ds (fun a ha => h a (by simp [ha]))

/-- C9: the two attributes are immutable after construction — none of the
three methods yields a modified downloader — and `__init__` creates the
output directory idempotently: with `exist_ok=True` construction never
fails, it creates the directory together with all its missing ancestors, and
constructing a second time over the resulting directory set succeeds and
changes nothing. -/
theorem C9_config_immutable_init_idempotent (api_key directorio : String)
    (dirs : List String) (d : PixabayDownloader) (consulta : String)
    (cantidad : Nat) (searchNet : SearchParams → HttpResult Json)
    (fetchNet : Json → HttpResult (List Nat)) (url : Json) (nombre : String)
    (fs : Fs) :
    (∃ dirs₂,
      PixabayDownloader.mkInit api_key directorio dirs =
        .ok ({ api_key := api_key, directorio_imagenes := directorio }, dirs₂) ∧
      (∀ a ∈ pathAncestors directorio, a ∈ dirs₂) ∧
      PixabayDownloader.mkInit api_key directorio dirs₂ =
        .ok ({ api_key := api_key, directorio_imagenes := directorio }, dirs₂)) ∧
    (d.searchM consulta cantidad searchNet).2 = d ∧
    (d.fetchM url nombre fetchNet fs).2 = d ∧
    (d.runM consulta cantidad searchNet fetchNet fs).2 = d := by
  refine ⟨?_, rfl, rfl, rfl⟩
  refine ⟨(pathAncestors directorio).foldl (fun acc q => acc.insert q) dirs,
    ?_, ?_, ?_⟩
  · simp [PixabayDownloader.mkInit, makedirs]
  · intro a ha
    exact mem_foldl_insert_self (pathAncestors directorio) dirs ha
  · have hno : (pathAncestors directorio).foldl (fun acc q => acc.insert q)
        ((pathAncestors directorio).foldl (fun acc q => acc.insert q) dirs) =
        (pathAncestors directorio).foldl (fun acc q => acc.insert q) dirs :=
      foldl_insert_no_op _ _
        (fun a ha => mem_foldl_insert_self (pathAncestors directorio) dirs ha)
    simp [PixabayDownloader.mkInit, makedirs, hno]

/-- C9 witness: constructing with the default directory name over an empty
directory set succeeds, makes the directory exist, and re-constructing over
the resulting set succeeds without change; the methods leave a concrete
downloader unchanged. -/
theorem C9_config_immutable_init_idempotent_witness :
    (∃ dirs₂,
      PixabayDownloader.mkInit "clave" "imagenes_descargadas" [] =
        .ok ({ api_key := "clave",
               directorio_imagenes := "imagenes_descargadas" }, dirs₂) ∧
      (∀ a ∈ pathAncestors "imagenes_descargadas", a ∈ dirs₂) ∧
      PixabayDownloader.mkInit "clave" "imagenes_descargadas" dirs₂ =
        .ok ({ api_key := "clave",
               directorio_imagenes := "imagenes_descargadas" }, dirs₂)) ∧
    (exD.searchM "perros" 50 exNet200).2 = exD ∧
    (exD.fetchM (Json.str "http://x/a.jpg") "imagen_1.jpg" exFetchNetOk exFs).2 = exD ∧
    (exD.runM "perros" 50 exNet200 exFetchNetOk exFs).2 = exD :=
  C9_config_immutable_init_idempotent "clave" "imagenes_descargadas" [] exD
    "perros" 50 exNet200 exFetchNetOk (Json.str "http://x/a.jpg")
    "imagen_1.jpg" exFs

/-
Claim C7.
-/

/-- C7: in every schedule of the thread system of a run over `tasks`, (a) if
the main thread has returned from the join loop then no thread is still
running and every one of the `tasks.length` launched fetches — succeeded or
failed — has completed; and (b) a still-running fetch can always complete in
one step, whatever the outcomes (including failures) already recorded for
the other positions: one position's failure cannot prevent the others from
completing. -/
theorem C7_join_all_barrier (d : PixabayDownloader)
    (fetchNet : Json → HttpResult (List Nat)) (fs : Fs)
    (tasks : List (Json × String)) (s : ConcState)
    (h : ConcReach (threadOutcome d fetchNet fs tasks) tasks.length s) :
    (s.mainReturned = true →
      s.pending = [] ∧ s.completed.length = tasks.length ∧
      ∀ i, i < tasks.length → ∃ o, (i, o) ∈ s.completed) ∧
    (∀ i, i ∈ s.pending →
      ConcStep (threadOutcome d fetchNet fs tasks) s
        { pending := s.pending.erase i,
          completed := (i, threadOutcome d fetchNet fs tasks i) :: s.completed,
          mainReturned := false }) := by
  obtain ⟨hperm, hmain⟩ := concReach_invariant h
  constructor
  · intro hm
    have hp := hmain hm
    rw [hp] at hperm
    simp only [List.nil_append] at hperm
    refine ⟨hp, ?_, ?_⟩
    · simpa using hperm.length_eq
    · intro i hi
      have hmem : i ∈ s.completed.map Prod.fst :=
        hperm.mem_iff.mpr (List.mem_range.mpr hi)
      obtain ⟨⟨i', o⟩, hx, hxi⟩ := List.mem_map.mp hmem
      cases hxi
      exact ⟨o, hx⟩
  · intro i hi
    have hm : s.mainReturned = false := by
      cases hmr : s.mainReturned with
      | false => rfl
      | true => rw [hmain hmr] at hi; cases hi
    exact ConcStep.finish s i hi hm

/-- C7 witness: a concrete schedule of a one-task run whose fetch fails —
the failed fetch completes, and once the main thread passes the join it has
recorded all launched fetches as completed. -/
theorem C7_join_all_barrier_witness :
    ([] : List Nat) = [] ∧
    ([(0, c7wOut 0)] : List (Nat × FetchOut)).length = c7wTasks.length ∧
    (∃ o, (0, o) ∈ ([(0, c7wOut 0)] : List (Nat × FetchOut))) := by
  have h1 : ConcReach c7wOut c7wTasks.length (startState c7wTasks.length) :=
    ConcReach.start
  have hstep1 : ConcStep c7wOut (startState c7wTasks.length)
      { pending := (startState c7wTasks.length).pending.erase 0,
        completed := [(0, c7wOut 0)], mainReturned := false } :=
    ConcStep.finish _ 0 (by decide) rfl
  have h2 := ConcReach.step _ _ h1 hstep1
  have hstep2 : ConcStep c7wOut
      { pending := (startState c7wTasks.length).pending.erase 0,
        completed := [(0, c7wOut 0)], mainReturned := false }
      { pending := [], completed := [(0, c7wOut 0)], mainReturned := true } :=
    ConcStep.joinAll _ (by decide) rfl
  have h3 := ConcReach.step _ _ h2 hstep2
  have h := C7_join_all_barrier exD exFetchNetDown exFs c7wTasks _ h3
  have hm := h.1 rfl
  exact ⟨hm.1, hm.2.1, hm.2.2 0 (by decide)⟩

end Pixabay
